import Mathlib

/-!
Verification of the Luma AI decision service (services/ai-py) against its
specification.  The Python source is shallowly embedded: pydantic models
become structures, Python dicts become insertion-ordered association lists,
floats become exact rationals (every float arithmetic step relevant to the
claims below is exact: the values involved are small integers, halves and
quarters), and code that can raise returns `Except PyErr`.

A central fact about this revision of the source: `models.Context` declares
only the fields user_text, timestamp, mode, signals, history_summary,
profile_summary and memory_summary, and `models.Action` declares only
action_type, message, confidence, cost and risk_level (a TODO comment in
models.py notes that reason/explanation fields are still to be added).
Nevertheless `main.py` and `policy/ollama.py` read `context.focus_state` and
`context.switch_count`.  On a pydantic model, reading an undeclared
attribute raises AttributeError; passing an undeclared keyword such as
`reason=` or `state=` to the constructor is silently ignored (the default
`extra` behaviour of pydantic).  Both behaviours are embedded explicitly
below.
-/

namespace Luma

/-! ### Python dictionaries as insertion-ordered association lists

Python dicts keep insertion order, never hold a key twice, and `d[k] = v`
on a fresh key appends at the end.  The operations used by the source are
`get`, `setdefault` and `pop`. -/

/-- Python `d.get(k)` : first binding of `k`, if any. -/
def dictGet (d : List (String × α)) (k : String) : Option α :=
  match d with
  | [] => none
  | (k', v) :: rest => if k' = k then some v else dictGet rest k

/-- Python `d.get(k, dflt)`. -/
def dictGetD (d : List (String × α)) (k : String) (dflt : α) : α :=
  (dictGet d k).getD dflt

/-- Python `d[k] = v` : overwrite in place if present, else append. -/
def dictSet (d : List (String × α)) (k : String) (v : α) : List (String × α) :=
  match d with
  | [] => [(k, v)]
  | (k', v') :: rest => if k' = k then (k', v) :: rest else (k', v') :: dictSet rest k v

/-- Python `d.setdefault(k, v)` : returns the value now stored under `k`
together with the updated dict (unchanged when `k` was present). -/
def dictSetdefault (d : List (String × α)) (k : String) (v : α) :
    α × List (String × α) :=
  match dictGet d k with
  | some v' => (v', d)
  | none => (v, d ++ [(k, v)])

/-- Python `d.pop(k, None)` : returns the popped value (if any) and the
dict with the first binding of `k` removed. -/
def dictPop (d : List (String × α)) (k : String) : Option α × List (String × α) :=
  match d with
  | [] => (none, [])
  | (k', v) :: rest =>
    if k' = k then (some v, rest)
    else
      let r := dictPop rest k
      (r.1, (k', v) :: r.2)

/-! ### Python str methods

The Python str methods used by the source (strip, lower, upper, split and
the int and float constructors) are embedded as structural functions on
the character list of the string, so that every concrete instance reduces
inside the kernel.  On the ASCII data handled by this service they agree
with the Python methods (Python also handles some non-ASCII whitespace,
case pairs and digit spellings, which no claim depends on). -/

/-- Python str.strip(). -/
def stripStr (s : String) : String :=
  ⟨((s.data.dropWhile Char.isWhitespace).reverse.dropWhile Char.isWhitespace).reverse⟩

/-- Python str.lower(). -/
def lowerStr (s : String) : String :=
  ⟨s.data.map Char.toLower⟩

/-- Python str.upper(). -/
def upperStr (s : String) : String :=
  ⟨s.data.map Char.toUpper⟩

/-- Python s.split(sep, 1)[0]: the part before the first occurrence of the
single-character separator, the whole string when absent. -/
def beforeChar (sep : Char) (s : String) : String :=
  ⟨s.data.takeWhile (fun c => c ≠ sep)⟩

/-- Value of a non-empty run of decimal digits; None on any other input. -/
def natOfCharsAux (acc : Nat) : List Char → Option Nat
  | [] => some acc
  | c :: rest => if c.isDigit then natOfCharsAux (acc * 10 + (c.toNat - 48)) rest else none

/-- Digits-only parse of a character list (None when empty or non-digit). -/
def natOfChars : List Char → Option Nat
  | [] => none
  | cs => natOfCharsAux 0 cs

/-! ### Enumerations from models.py -/

/-- models.Mode (a str Enum with values SILENT, LIGHT, ACTIVE). -/
inductive Mode
  | SILENT
  | LIGHT
  | ACTIVE
deriving DecidableEq, Repr

/-- The string value of a Mode member.  The comparison
`context.mode == "SILENT"` in bandit.py is true exactly for Mode.SILENT,
because the enum mixes in str. -/
def Mode.val : Mode → String
  | .SILENT => "SILENT"
  | .LIGHT => "LIGHT"
  | .ACTIVE => "ACTIVE"

/-- models.RiskLevel. -/
inductive RiskLevel
  | LOW
  | MEDIUM
  | HIGH
deriving DecidableEq, Repr

/-- models.ActionType, in declaration order (the order of
`[a for a in ActionType]` in bandit.py). -/
inductive ActionType
  | DO_NOT_DISTURB
  | ENCOURAGE
  | TASK_BREAKDOWN
  | REST_REMINDER
  | REFRAME
deriving DecidableEq, Repr

/-- `ActionType.value` in Python. -/
def ActionType.val : ActionType → String
  | .DO_NOT_DISTURB => "DO_NOT_DISTURB"
  | .ENCOURAGE => "ENCOURAGE"
  | .TASK_BREAKDOWN => "TASK_BREAKDOWN"
  | .REST_REMINDER => "REST_REMINDER"
  | .REFRAME => "REFRAME"

/-- The list `[a for a in ActionType]`: enum iteration order. -/
def ActionType.all : List ActionType :=
  [.DO_NOT_DISTURB, .ENCOURAGE, .TASK_BREAKDOWN, .REST_REMINDER, .REFRAME]

/-! ### Data model from models.py -/

/-- models.Context, with exactly the fields declared in this revision of
models.py.  Note: no focus_state and no switch_count field is declared,
although other modules read those attributes. -/
structure Context where
  user_text : String
  timestamp : Int
  mode : Mode
  signals : List (String × String)
  history_summary : Option String := some ""
  profile_summary : Option String := some ""
  memory_summary : Option String := some ""
deriving DecidableEq, Repr

/-- models.Action, with exactly the fields declared in this revision of
models.py: there is no reason and no state field (models.py carries a TODO
to add them).  Floats are embedded as rationals. -/
structure Action where
  action_type : ActionType
  message : String
  confidence : ℚ
  cost : ℚ
  risk_level : RiskLevel
deriving DecidableEq, Repr

/-- Python exceptions that the embedded code can raise. -/
inductive PyErr
  | attributeError (nm : String)
  | otherError (msg : String)
deriving DecidableEq, Repr

/-- Reading `context.focus_state`.  models.Context declares no such field,
so pydantic raises AttributeError. -/
def Context.getattrFocusState (_ : Context) : Except PyErr (Option String) :=
  .error (.attributeError "focus_state")

/-- Reading `context.switch_count`.  models.Context declares no such field,
so pydantic raises AttributeError. -/
def Context.getattrSwitchCount (_ : Context) : Except PyErr (Option Int) :=
  .error (.attributeError "switch_count")

/-- Constructing `Action(...)` with the extra keywords `reason=` and
`state=` that the policies pass: pydantic silently drops keywords that are
not declared fields (default extra behaviour), so the resulting Action
holds only the five declared fields and the reason text is lost. -/
def Action.makeWithReason (action_type : ActionType) (message : String)
    (confidence cost : ℚ) (risk_level : RiskLevel)
    (_reason : String) (_state : Option String := none) : Action :=
  { action_type := action_type, message := message, confidence := confidence,
    cost := cost, risk_level := risk_level }

/-! ### BanditPolicy (policy/bandit.py)

State is passed explicitly.  Durable writes (_save_stats) are recorded in a
`saves` log: each call appends the full statistics value that json.dump
would write.  Randomness is an explicit oracle: `roll` stands for the value
of `random.random()` and the two indices stand for the uniform index drawn
by `random.choice` on each branch (uniform over the length of the chosen
list).  Rewards are embedded as integers: _feedback_reward only ever
returns the floats 1.0, -1.0 and 0.0, and float addition of such values is
exact integer arithmetic. -/

/-- One entry of a bucket: the dict with keys count and reward. -/
structure ActionStats where
  count : Nat
  reward : Int
deriving DecidableEq, Repr

/-- A bucket: action-type value to ActionStats, a Python dict. -/
def Bucket := List (String × ActionStats)
deriving instance DecidableEq, Repr for Bucket

/-- The persisted statistics document.  _load_stats initializes it to a
dict holding an empty dict under the key buckets, and every access goes
through setdefault on that key, so the document always has exactly this
shape; we embed it as a one-field structure mirroring the wrapper dict. -/
structure Stats where
  buckets : List (String × Bucket)
deriving DecidableEq, Repr

/-- The mutable state of a BanditPolicy instance: self.stats, self.pending,
and the log of _save_stats calls (most recent last). -/
structure BanditState where
  stats : Stats
  pending : List (String × (String × ActionType))
  saves : List Stats
deriving DecidableEq, Repr

/-- self.epsilon = 0.15. -/
def epsilon : ℚ := 15 / 100

/-- The randomness consumed by one decide call: `roll` is random.random()
and each index selects uniformly from the corresponding random.choice list
(taken modulo its length). -/
structure Rand where
  roll : ℚ
  exploreIdx : Nat
  exploitIdx : Nat

/-- BanditPolicy._bucket_key.  The hour and focus-state signals are read
with defaults, guarded by the truthiness test on the signals dict exactly
as in the source.  The mode is rendered by its string value. -/
def bucketKey (ctx : Context) : String :=
  let hour := if ctx.signals = [] then "" else dictGetD ctx.signals "hour_of_day" ""
  let focus_state :=
    if ctx.signals = [] then "UNKNOWN" else dictGetD ctx.signals "focus_state" "UNKNOWN"
  ctx.mode.val ++ "|" ++ hour ++ "|" ++ focus_state

/-- BanditPolicy._init_bucket: every action type mapped to count 0,
reward 0.0, in enum order. -/
def initBucket : Bucket :=
  ActionType.all.map (fun a => (a.val, ⟨0, 0⟩))

/-- BanditPolicy._feedback_reward: strip and upper-case the part of the
feedback before the first colon, then map it to 1.0, -1.0 or 0.0.
The strip and upper embeddings agree with the Python str methods on the
ASCII inputs involved in the claims. -/
def feedbackReward (feedback : String) : Int :=
  let t := upperStr (stripStr (beforeChar ':' feedback))
  if t = "LIKE" ∨ t = "ADOPTED" ∨ t = "OPEN_PANEL" then 1
  else if t = "DISLIKE" ∨ t = "IGNORED" ∨ t = "CLOSED" then -1
  else 0

/-- BanditPolicy._action_cost.  The trailing `return 1.0` of the source is
unreachable: the five branches cover every ActionType. -/
def actionCost : ActionType → ℚ
  | .DO_NOT_DISTURB => 0
  | .REST_REMINDER => 2
  | .ENCOURAGE => 15 / 10
  | .TASK_BREAKDOWN => 3
  | .REFRAME => 25 / 10

/-- BanditPolicy._build_message. -/
def buildMessage (action : ActionType) (ctx : Context) : String :=
  let focus_minutes := if ctx.signals = [] then "0" else dictGetD ctx.signals "focus_minutes" "0"
  let app_name := if ctx.signals = [] then "" else dictGetD ctx.signals "focus_app" ""
  match action with
  | .REST_REMINDER =>
      "You have focused for " ++ focus_minutes ++ " minutes. Want a short break?"
  | .TASK_BREAKDOWN => "If the task feels large, try breaking it into 2-3 small steps."
  | .REFRAME => "Maybe try a different angle. Start with the easiest part?"
  | .ENCOURAGE =>
      if app_name ≠ "" then "Nice pace in " ++ app_name ++ ". Keep it up."
      else "Good progress. Keep this pace."
  | .DO_NOT_DISTURB => "I will stay quiet. Tap me if you need anything."

/-- Two-decimal fixed-point rendering of a rational, used for the
avg_reward field of the reason string.  The Python source formats the
float with :.2f (round-half-even on the binary float); the difference in
rounding convention is immaterial because the reason string is discarded
by the Action constructor (models.Action has no reason field). -/
def fmt2dp (q : ℚ) : String :=
  let c : Int := round (q * 100)
  let sign := if c < 0 then "-" else ""
  let a := c.natAbs
  let f := a % 100
  sign ++ toString (a / 100) ++ "." ++ (if f < 10 then "0" else "") ++ toString f

/-- BanditPolicy._build_reason. -/
def buildReason (bucket : String) (bucketStats : Bucket) (action : ActionType)
    (exploring : Bool) : String :=
  let stats := dictGetD bucketStats action.val ⟨0, 0⟩
  let avg : ℚ := if stats.count = 0 then 0 else (stats.reward : ℚ) / (stats.count : ℚ)
  let mode := if exploring then "explore" else "exploit"
  "bandit:" ++ mode ++ " bucket=" ++ bucket ++ " avg_reward=" ++ fmt2dp avg ++
    " count=" ++ toString stats.count

/-- The per-action score of the exploit loop: reward divided by count when
count is nonzero, else 0.  Python divides floats; the division here is
exact, which agrees with the float result whenever the claims below look
at it (all scores compared in the claims are exactly 0). -/
def scoreOf (bucketStats : Bucket) (a : ActionType) : ℚ :=
  let stats := dictGetD bucketStats a.val ⟨0, 0⟩
  if stats.count = 0 then 0 else (stats.reward : ℚ) / (stats.count : ℚ)

/-- The accumulation loop of BanditPolicy._select_action: walk the action
types in order, tracking the best score and the list of actions tied for
it (appended in iteration order). -/
def bestLoop (bucketStats : Bucket) :
    List ActionType → Option ℚ → List ActionType → Option ℚ × List ActionType
  | [], best, acc => (best, acc)
  | a :: rest, best, acc =>
    let score := scoreOf bucketStats a
    match best with
    | none => bestLoop bucketStats rest (some score) [a]
    | some b =>
      if score > b then bestLoop bucketStats rest (some score) [a]
      else if score = b then bestLoop bucketStats rest (some b) (acc ++ [a])
      else bestLoop bucketStats rest (some b) acc

/-- BanditPolicy._select_action: explore with probability epsilon, else
pick uniformly among the actions tied for the best score. -/
def selectAction (bucketStats : Bucket) (r : Rand) : ActionType × Bool :=
  let actions := ActionType.all
  if r.roll < epsilon then
    (actions.getD (r.exploreIdx % actions.length) .ENCOURAGE, true)
  else
    let bestActions := (bestLoop bucketStats actions none []).2
    if bestActions = [] then (.ENCOURAGE, false)
    else (bestActions.getD (r.exploitIdx % bestActions.length) .ENCOURAGE, false)

/-- BanditPolicy.decide.  Returns the updated state (the setdefault on the
bucket key may insert a fresh zero bucket into self.stats) and the tuple
(action, policy name, model version).  The computed reason string is
passed to the Action constructor and dropped there. -/
def banditDecide (st : BanditState) (ctx : Context) (r : Rand) :
    BanditState × (Action × String × String) :=
  let bucket := bucketKey ctx
  let sd := dictSetdefault st.stats.buckets bucket initBucket
  let bucketStats := sd.1
  let st1 : BanditState := { st with stats := ⟨sd.2⟩ }
  let cr :=
    if ctx.mode = Mode.SILENT then (ActionType.DO_NOT_DISTURB, false)
    else selectAction bucketStats r
  let message := buildMessage cr.1 ctx
  let reason := buildReason bucket bucketStats cr.1 cr.2
  let action := Action.makeWithReason cr.1 message (6/10) (actionCost cr.1) RiskLevel.LOW reason
  (st1, (action, "bandit_v0", "bandit_local"))

/-- BanditPolicy.record_decision: store (bucket, action type) under the
request id, unless the id is empty. -/
def recordDecision (st : BanditState) (request_id : String) (ctx : Context)
    (action : Action) : BanditState :=
  if request_id = "" then st
  else { st with pending := dictSet st.pending request_id (bucketKey ctx, action.action_type) }

/-- BanditPolicy.record_feedback: pop the pending entry (no-op when the id
is empty or unknown), map the feedback to a reward, and on a non-zero
reward bump the bucket/action statistics and persist (append the new
statistics value to the saves log). -/
def recordFeedback (st : BanditState) (request_id feedback : String) : BanditState :=
  if request_id = "" then st
  else
    let p := dictPop st.pending request_id
    match p.1 with
    | none => st
    | some entry =>
      let st1 : BanditState := { st with pending := p.2 }
      let bucket := entry.1
      let action_type := entry.2
      let reward := feedbackReward feedback
      if reward = 0 then st1
      else
        let sd1 := dictSetdefault st1.stats.buckets bucket initBucket
        let sd2 := dictSetdefault sd1.1 action_type.val ⟨0, 0⟩
        let astats : ActionStats := ⟨sd2.1.count + 1, sd2.1.reward + reward⟩
        let bstats := dictSet sd2.2 action_type.val astats
        let buckets := dictSet sd1.2 bucket bstats
        let stats : Stats := ⟨buckets⟩
        { st1 with stats := stats, saves := st1.saves ++ [stats] }

/-- The count/reward pair stored for a bucket and action type, with the
same defaults the source uses when reading (absent keys read as count 0,
reward 0.0). -/
def statsAt (s : Stats) (bucket : String) (a : ActionType) : ActionStats :=
  ((dictGet s.buckets bucket).bind (fun bs => dictGet bs a.val)).getD ⟨0, 0⟩

/-- The count stored for a bucket and action type. -/
def statCount (s : Stats) (bucket : String) (a : ActionType) : Nat :=
  (statsAt s bucket a).count

/-- The reward sum stored for a bucket and action type. -/
def statReward (s : Stats) (bucket : String) (a : ActionType) : Int :=
  (statsAt s bucket a).reward

/-! ### Gate (main.py) -/

/-- Python `x or y` on optional strings: `y` when `x` is None or empty. -/
def orStr (x y : Option String) : Option String :=
  match x with
  | some s => if s = "" then y else some s
  | none => y

/-- main.parse_bool: strip, lower-case, and map the recognized truthy and
falsy spellings; anything else is None. -/
def parseBool (value : Option String) : Option Bool :=
  match value with
  | none => none
  | some v =>
    let normalized := lowerStr (stripStr v)
    if normalized = "1" ∨ normalized = "true" ∨ normalized = "yes" ∨ normalized = "on" then
      some true
    else if normalized = "0" ∨ normalized = "false" ∨ normalized = "no" ∨ normalized = "off" then
      some false
    else none

/-- The two env_bool results read at the top of resolve_agent_settings:
env_bool of LUMA_AGENT_ENABLED with default true, and of LUMA_RULE_ONLY
with default false. -/
structure EnvCfg where
  agent_enabled : Bool := true
  rule_only : Bool := false
deriving DecidableEq, Repr

/-- main.resolve_agent_settings: start from the environment defaults and
override each flag when the corresponding signal parses to a boolean.  The
rule-only signal is `rule_only_mode` or-else `rule_only` with Python
string truthiness. -/
def resolveAgentSettings (env : EnvCfg) (ctx : Context) : Bool × Bool :=
  let signals := ctx.signals
  let signal_agent := parseBool (dictGet signals "agent_enabled")
  let agent_enabled := signal_agent.getD env.agent_enabled
  let signal_rule :=
    parseBool (orStr (dictGet signals "rule_only_mode") (dictGet signals "rule_only"))
  let rule_only := signal_rule.getD env.rule_only
  (agent_enabled, rule_only)

/-- Result of the gate section of the decide endpoint: either a terminal
response (action, policy version, model version) or control proceeding to
`policy.decide` — the underlying policy is invoked only on `proceed`. -/
inductive GateResult
  | gated (resp : Action × String × String)
  | proceed
deriving DecidableEq, Repr

/-- The gate portion of main.decide (everything before policy.decide is
called).  Both short-circuit branches evaluate
`payload.context.focus_state` while building the action, an attribute
models.Context does not declare. -/
def decideGate (env : EnvCfg) (ctx : Context) : Except PyErr GateResult := do
  let settings := resolveAgentSettings env ctx
  if settings.1 = false then do
    let fs ← ctx.getattrFocusState
    let state := (orStr fs (some (dictGetD ctx.signals "focus_state" ""))).getD ""
    pure (.gated (Action.makeWithReason .DO_NOT_DISTURB "Agent 已关闭，当前不生成提示。"
      1 0 .LOW "agent_disabled" (some state), "agent_disabled", "n/a"))
  else if settings.2 then do
    let fs ← ctx.getattrFocusState
    let state := (orStr fs (some (dictGetD ctx.signals "focus_state" ""))).getD ""
    pure (.gated (Action.makeWithReason .DO_NOT_DISTURB "规则模式已开启，已暂停 AI 提示。"
      1 0 .LOW "rule_only" (some state), "rule_only", "n/a"))
  else
    pure .proceed

/-! ### RemoteModelPolicy (policy/ollama.py)

The HTTP interaction is an oracle: `Backend.failure` stands for any of the
uniformly caught request failures (network error, timeout, non-2xx status,
unparsable JSON body, unparsable inner payload, or payload fields of the
wrong runtime type — every one of them raises inside the try block), and
`Backend.respond` carries the successfully parsed inner JSON object with
its optional fields. -/

/-- OllamaPolicy._truthy. -/
def truthy (value : Option String) : Bool :=
  match value with
  | none => false
  | some v =>
    let t := lowerStr (stripStr v)
    t = "1" ∨ t = "true" ∨ t = "yes" ∨ t = "on"

/-- Signed digit-list parse shared by the int() and float() embeddings:
peel an optional single sign and return it with the remaining characters. -/
def splitSign : List Char → Bool × List Char
  | '-' :: rest => (true, rest)
  | '+' :: rest => (false, rest)
  | cs => (false, cs)

/-- OllamaPolicy._parse_int: Python int() on the stripped string, None on
ValueError.  (Exotic spellings such as underscore separators are not
modelled; no claim depends on them.) -/
def parseIntPy (value : Option String) : Option Int :=
  match value with
  | none => none
  | some s =>
    let sg := splitSign (stripStr s).data
    (natOfChars sg.2).map (fun n => if sg.1 then -(n : Int) else (n : Int))

/-- Digit run of a float literal; empty counts as 0 (Python accepts a
missing integer or fraction part on one side of the dot). -/
def natPartChars (cs : List Char) : Option Nat :=
  match cs with
  | [] => some 0
  | _ => natOfChars cs

/-- OllamaPolicy._parse_float: Python float() on the stripped string, None
on ValueError.  Plain decimal forms are modelled; exponent, inf and nan
spellings are not (no claim depends on them). -/
def parseFloatPy (value : Option String) : Option ℚ :=
  match value with
  | none => none
  | some s =>
    let sg := splitSign (stripStr s).data
    let intPart := sg.2.takeWhile (fun c => c ≠ '.')
    let rest := sg.2.dropWhile (fun c => c ≠ '.')
    let q : Option ℚ :=
      match rest with
      | [] => (natOfChars intPart).map (fun n => (n : ℚ))
      | _ :: frac =>
        if frac.any (fun c => c = '.') then none
        else if intPart = [] ∧ frac = [] then none
        else
          (natPartChars intPart).bind (fun n =>
            (natPartChars frac).map (fun m =>
              (n : ℚ) + (m : ℚ) / ((10 : ℚ) ^ frac.length)))
    q.map (fun x => if sg.1 then -x else x)

/-- The inner JSON object of a successful backend response, already
field-typed (a field whose runtime type would make float() or the pydantic
coercion raise is folded into Backend.failure instead). -/
structure OllamaResp where
  action_type : Option String := none
  message : Option String := none
  confidence : Option ℚ := none
  cost : Option ℚ := none
  risk_level : Option String := none
  reason : Option String := none
  state : Option String := none
deriving DecidableEq, Repr

/-- Outcome oracle for the requests.post call and the response parsing. -/
inductive Backend
  | failure
  | respond (r : OllamaResp)
deriving DecidableEq, Repr

/-- Pydantic coercion of a string to ActionType; None means a
ValidationError is raised. -/
def parseActionType (s : String) : Option ActionType :=
  if s = "DO_NOT_DISTURB" then some .DO_NOT_DISTURB
  else if s = "ENCOURAGE" then some .ENCOURAGE
  else if s = "TASK_BREAKDOWN" then some .TASK_BREAKDOWN
  else if s = "REST_REMINDER" then some .REST_REMINDER
  else if s = "REFRAME" then some .REFRAME
  else none

/-- Pydantic coercion of a string to RiskLevel. -/
def parseRiskLevel (s : String) : Option RiskLevel :=
  if s = "LOW" then some .LOW
  else if s = "MEDIUM" then some .MEDIUM
  else if s = "HIGH" then some .HIGH
  else none

/-- OllamaPolicy._fallback_reason.  Its first statement reads
`context.focus_state`, which models.Context does not declare. -/
def fallbackReason (ctx : Context) : Except PyErr String := do
  let fsAttr ← ctx.getattrFocusState
  let signals := ctx.signals
  let focus_state := orStr fsAttr (dictGet signals "focus_state")
  let parts1 :=
    match focus_state with
    | some s => if s = "" then [] else ["focus_state=" ++ s]
    | none => []
  let sc0 := dictGet signals "switch_count"
  let sc ← (match sc0 with
    | some s =>
      if s ≠ "" then pure (some s)
      else do
        let a ← ctx.getattrSwitchCount
        pure (match a.getD 0 with
          | 0 => some s
          | n => some (toString n))
    | none => do
      let a ← ctx.getattrSwitchCount
      pure (match a.getD 0 with
        | 0 => (none : Option String)
        | n => some (toString n)))
  let parts2 :=
    match sc with
    | some s => if s = "" then [] else ["switch_count=" ++ s]
    | none => []
  let fm := orStr (dictGet signals "focus_minutes") (dictGet signals "focus_minutes_window")
  let parts3 :=
    match fm with
    | some s => if s = "" then [] else ["focus_minutes=" ++ s]
    | none => []
  let parts := parts1 ++ parts2 ++ parts3
  pure (if parts = [] then "model_no_reason" else String.intercalate ", " parts)

/-- The f-string body of _build_prompt, assembled from the already
computed fragments.  Literal braces of the JSON template are written with
their hexadecimal escapes. -/
def promptText (mode : Mode) (focus_state switch_count no_progress focus_minutes
    app_name window_title hour_of_day user_text profile_section memory_section :
    String) : String :=
  "\nYou are Luma, an intelligent desktop companion.\n" ++
  "Your goal is to offer gentle, non-intrusive support without judging or commanding the user.\n" ++
  profile_section ++ memory_section ++ "\n" ++
  "Current Context:\n" ++
  "- Mode: " ++ mode.val ++ " (SILENT: minimize disturbance, LIGHT: gentle reminders, ACTIVE: proactive)\n" ++
  "- Focus State: " ++ focus_state ++ "\n" ++
  "- App Switch Count: " ++ switch_count ++ "\n" ++
  "- No-Progress Minutes: " ++ no_progress ++ "\n" ++
  "- Focus Duration Minutes: " ++ focus_minutes ++ "\n" ++
  "- Current App: " ++ app_name ++ "\n" ++
  "- Window Title: " ++ window_title ++ "\n" ++
  "- Hour of Day: " ++ hour_of_day ++ "\n" ++
  "- User Input: \"" ++ user_text ++ "\"\n\n" ++
  "Task:\n" ++
  "Only use the explicit signals listed above. Do NOT infer screen content, keyboard content, or the user's task beyond those signals.\n" ++
  "Always prioritize the user's input text. If input is present and meaningful, respond directly with a concise, helpful reply.\n" ++
  "If input is empty or signals are weak, prefer DO_NOT_DISTURB instead of forcing a suggestion.\n" ++
  "Use non-judgmental language; avoid commands and absolute judgments. Use gentle suggestions (\"也许/可以/要不要\").\n" ++
  "Keep interventions low-frequency; if unsure, choose DO_NOT_DISTURB.\n" ++
  "If late night (hour 23-5), you may offer quiet companionship or a short reflection prompt, but do not push tasks.\n" ++
  "Use the User Profile and Recent Memory to personalize without sounding like monitoring.\n\n" ++
  "Output Format (JSON only):\n" ++
  "\x7b\n" ++
  "  \"action_type\": \"DO_NOT_DISTURB\" | \"ENCOURAGE\" | \"TASK_BREAKDOWN\" | \"REST_REMINDER\" | \"REFRAME\",\n" ++
  "  \"message\": \"A short, friendly message to the user (in Chinese)\",\n" ++
  "  \"confidence\": 0.0 to 1.0,\n" ++
  "  \"cost\": 0.0 to 1.0 (interruption cost),\n" ++
  "  \"risk_level\": \"LOW\" | \"MEDIUM\" | \"HIGH\",\n" ++
  "  \"reason\": \"One short sentence citing concrete signals (e.g., focus_state=FOCUSED, switch_count=1)\",\n" ++
  "  \"state\": \"FOCUSED\" | \"LIGHT\" | \"DISTRACTED\" | \"NO_PROGRESS\" | \"UNKNOWN\"\n" ++
  "\x7d\n"

/-- OllamaPolicy._build_prompt.  When the switch_count signal is absent or
empty it reads `context.switch_count`, and in every run it reads
`context.focus_state` — attributes models.Context does not declare, so
this function always raises AttributeError. -/
def buildPrompt (ctx : Context) : Except PyErr String := do
  let signals := ctx.signals
  let app_name := dictGetD signals "focus_app" "Unknown"
  let window_title := dictGetD signals "focus_window_title" ""
  let focus_minutes0 := dictGetD signals "focus_minutes" "0"
  let focus_minutes :=
    if focus_minutes0 = "0" then dictGetD signals "focus_minutes_window" "0"
    else focus_minutes0
  let sc0 := dictGetD signals "switch_count" ""
  let switch_count ← (if sc0 = "" then do
      let a ← ctx.getattrSwitchCount
      pure (toString (match a.getD 0 with | n => n))
    else pure sc0)
  let fsAttr ← ctx.getattrFocusState
  let focus_state := (orStr fsAttr (some (dictGetD signals "focus_state" "UNKNOWN"))).getD ""
  let no_progress := dictGetD signals "no_progress_minutes" "0"
  let hour_of_day := dictGetD signals "hour_of_day" ""
  let profile_section :=
    match ctx.profile_summary with
    | some s => if s = "" then "" else "\nUser Profile (Preferences & Traits):\n" ++ s ++ "\n"
    | none => ""
  let memory_section :=
    match ctx.memory_summary with
    | some s => if s = "" then "" else "\nRecent Memory Events:\n" ++ s ++ "\n"
    | none => ""
  pure (promptText ctx.mode focus_state switch_count no_progress focus_minutes
    app_name window_title hour_of_day ctx.user_text profile_section memory_section)

/-- OllamaPolicy._precheck_action.  Reads `context.focus_state`, an
attribute models.Context does not declare, so it always raises. -/
def precheckAction (message reason : String) (ctx : Context) : Except PyErr Action := do
  let fsAttr ← ctx.getattrFocusState
  let sigState := if ctx.signals = [] then "" else dictGetD ctx.signals "focus_state" ""
  let state := (orStr fsAttr (some sigState)).getD ""
  pure (Action.makeWithReason .DO_NOT_DISTURB message 1 0 .LOW
    ("precheck:" ++ reason) (some (if state = "" then "UNKNOWN" else state)))

/-- OllamaPolicy._precheck: skipped entirely when the user text is
non-blank; otherwise check the cooldown and budget signals in order.
`nowMs` stands for int(time.time() * 1000). -/
def precheck (ctx : Context) (nowMs : Int) : Except PyErr (Option Action) := do
  if ctx.user_text ≠ "" ∧ stripStr ctx.user_text ≠ "" then
    pure none
  else
    let signals := ctx.signals
    if truthy (dictGet signals "cooldown_active") then do
      let a ← precheckAction "处于冷却期，暂不提示。" "cooldown_active" ctx
      pure (some a)
    else if truthy (dictGet signals "budget_exhausted") then do
      let a ← precheckAction "干预预算不足，暂不提示。" "budget_exhausted" ctx
      pure (some a)
    else
      let cooldown_until := parseIntPy (dictGet signals "cooldown_until_ms")
      if (cooldown_until.elim false (fun n => decide (n ≠ 0 ∧ n > nowMs))) then do
        let a ← precheckAction "处于冷却期，暂不提示。" "cooldown_until" ctx
        pure (some a)
      else
        let remaining := parseFloatPy (dictGet signals "budget_remaining")
        if (remaining.elim false (fun q => decide (q ≤ 0))) then do
          let a ← precheckAction "干预预算不足，暂不提示。" "budget_remaining" ctx
          pure (some a)
        else
          pure none

/-- The body of the try block of OllamaPolicy.decide (lines 31-63): the
request itself, response mapping, and Action construction with pydantic
coercion and confidence validation.  Every raised error here is caught by
the enclosing except clause. -/
def tryOllama (ctx : Context) (model _prompt : String) (b : Backend) :
    Except PyErr (Action × String) := do
  match b with
  | .failure => .error (.otherError "request failed")
  | .respond rd =>
    let reason ← (match rd.reason with
      | some s => if s = "" then fallbackReason ctx else pure s
      | none => fallbackReason ctx)
    let state ← (match rd.state with
      | some s =>
        if s = "" then do
          let fs ← ctx.getattrFocusState
          pure ((orStr fs (some (dictGetD ctx.signals "focus_state" ""))).getD "")
        else pure s
      | none => do
        let fs ← ctx.getattrFocusState
        pure ((orStr fs (some (dictGetD ctx.signals "focus_state" ""))).getD ""))
    let atype ← (match parseActionType (rd.action_type.getD "DO_NOT_DISTURB") with
      | some a => pure a
      | none => .error (.otherError "validation"))
    let conf := rd.confidence.getD (5/10)
    if ¬ (0 ≤ conf ∧ conf ≤ 1) then
      .error (.otherError "validation")
    else
      let cost := rd.cost.getD 0
      let risk ← (match parseRiskLevel (rd.risk_level.getD "LOW") with
        | some rl => pure rl
        | none => .error (.otherError "validation"))
      let msg := rd.message.getD "无法生成建议"
      pure (Action.makeWithReason atype msg conf cost risk reason (some state), model)

/-- OllamaPolicy.decide.  `selfModel` is the OLLAMA_MODEL configuration
read in the constructor; `nowMs` the clock; `b` the backend oracle.  The
prompt is built first (outside the try block, so its AttributeError
propagates to the caller), then the per-request model override is applied,
then the precheck runs, and only then the guarded backend call. -/
def ollamaDecide (ctx : Context) (selfModel : String) (nowMs : Int) (b : Backend) :
    Except PyErr (Action × String × String) := do
  let prompt ← buildPrompt ctx
  let model :=
    if ctx.signals ≠ [] then
      let override := stripStr (dictGetD ctx.signals "ollama_model" "")
      if override ≠ "" then override else selfModel
    else selfModel
  let pre ← precheck ctx nowMs
  match pre with
  | some a => pure (a, "ollama_v0", "precheck")
  | none =>
    match tryOllama ctx model prompt b with
    | .ok r => pure (r.1, "ollama_v0", r.2)
    | .error _ =>
      pure (Action.makeWithReason .DO_NOT_DISTURB "AI 服务暂时不可用" 1 0 .LOW
        "ollama_error", "ollama_v0", "error")

/-- UnavailablePolicy.decide. -/
def unavailableDecide (_ctx : Context) : Action × String × String :=
  ({ action_type := .DO_NOT_DISTURB, message := "无可用环境", confidence := 1,
     cost := 0, risk_level := .LOW }, "unavailable", "n/a")

/-! ### Persistence (_save_stats and _load_stats)

json.dump followed by json.load is modelled at the level of the JSON value
tree: _save_stats writes the tree `encodeStats self.stats` (the text form
produced by json.dump represents this tree losslessly: keys are strings,
counts are Python ints, and every reachable reward is an integral float,
which serializes and re-parses exactly), and _load_stats reads a tree back
into the statistics mapping.  Integer-typed and float-typed JSON numbers
are kept apart, as json does. -/

/-- A JSON value as Python json sees it. -/
inductive Json
  | jnull
  | jbool (b : Bool)
  | jint (n : Int)
  | jnum (q : ℚ)
  | jstr (s : String)
  | jarr (xs : List Json)
  | jobj (fields : List (String × Json))

/-- The JSON object written for one count/reward pair: count as a JSON
int, reward as a JSON float. -/
def encodeActionStats (a : ActionStats) : Json :=
  .jobj [("count", .jint a.count), ("reward", .jnum a.reward)]

/-- Reading one count/reward object back. -/
def decodeActionStats : Json → Option ActionStats
  | .jobj [("count", .jint n), ("reward", .jnum q)] =>
    if 0 ≤ n ∧ q.den = 1 then some ⟨n.toNat, q.num⟩ else none
  | _ => none

/-- Decode the fields of a JSON object with a per-value decoder, keeping
key order. -/
def decodeFields (dec : Json → Option α) : List (String × Json) → Option (List (String × α))
  | [] => some []
  | (k, v) :: rest =>
    (dec v).bind (fun a => (decodeFields dec rest).map (fun l => (k, a) :: l))

/-- The JSON object written for one bucket. -/
def encodeBucket (b : Bucket) : Json :=
  .jobj (b.map (fun e => (e.1, encodeActionStats e.2)))

/-- Reading one bucket back. -/
def decodeBucket : Json → Option Bucket
  | .jobj fs => decodeFields decodeActionStats fs
  | _ => none

/-- The document _save_stats writes: the statistics mapping wrapped in an
object under the key buckets. -/
def encodeStats (s : Stats) : Json :=
  .jobj [("buckets", .jobj (s.buckets.map (fun e => (e.1, encodeBucket e.2))))]

/-- Reading the document back into the bucket/action/count/reward
mapping, as _load_stats followed by the accesses of the policy does. -/
def decodeStats : Json → Option Stats
  | .jobj [("buckets", .jobj fs)] => (decodeFields decodeBucket fs).map Stats.mk
  | _ => none

/-! ### Shared sample inputs for the concrete instances below -/

/-- A fresh policy state: empty statistics, no pending entries, no saves. -/
def emptyState : BanditState :=
  { stats := ⟨[]⟩, pending := [], saves := [] }

/-- A randomness draw whose roll refuses exploration. -/
def exploitRand : Rand :=
  { roll := 1, exploreIdx := 0, exploitIdx := 0 }

/-- A SILENT-mode context with no signals. -/
def silentCtx : Context :=
  { user_text := "", timestamp := 0, mode := .SILENT, signals := [] }

/-- A LIGHT-mode context with no signals. -/
def lightCtx : Context :=
  { user_text := "", timestamp := 0, mode := .LIGHT, signals := [] }

/-- A sample recorded action (the fields other than action_type are
irrelevant to record_decision). -/
def sampleAction : Action :=
  { action_type := .ENCOURAGE, message := "", confidence := 6/10, cost := 15/10,
    risk_level := .LOW }

/-- A state with one pending decision recorded under request id r1. -/
def pendingState : BanditState :=
  recordDecision emptyState "r1" lightCtx sampleAction

/-- The environment defaults: agent enabled, rule-only off. -/
def envDefault : EnvCfg := {}

/-- A context whose signals disable the agent. -/
def gateCtx : Context :=
  { user_text := "", timestamp := 0, mode := .LIGHT, signals := [("agent_enabled", "0")] }

/-- Blank user text with an exhausted numeric budget signal. -/
def budgetCtx : Context :=
  { user_text := "", timestamp := 0, mode := .LIGHT, signals := [("budget_remaining", "0")] }

/-- Explicit non-blank user text and no signals. -/
def textCtx : Context :=
  { user_text := "hello", timestamp := 0, mode := .LIGHT, signals := [] }

/-! ### Claim-worded reward mappings (for C3)

`claimedReward` renders the words of the claim exactly: the reward is the
upper-cased substring of the feedback before the first colon, mapped over
the two keyword sets.  `amendedReward` adds the whitespace strip that the
source performs between splitting and upper-casing; it is the mapping the
amended claim describes. -/

/-- The mapping as the claim words it: no whitespace stripping. -/
def claimedReward (feedback : String) : Int :=
  let t := upperStr (beforeChar ':' feedback)
  if t = "LIKE" ∨ t = "ADOPTED" ∨ t = "OPEN_PANEL" then 1
  else if t = "DISLIKE" ∨ t = "IGNORED" ∨ t = "CLOSED" then -1
  else 0

/-- The amended mapping: strip surrounding whitespace from the part before
the first colon, then upper-case and map. -/
def amendedReward (feedback : String) : Int :=
  let t := upperStr (stripStr (beforeChar ':' feedback))
  if t = "LIKE" ∨ t = "ADOPTED" ∨ t = "OPEN_PANEL" then 1
  else if t = "DISLIKE" ∨ t = "IGNORED" ∨ t = "CLOSED" then -1
  else 0

/-! ### Dictionary lemmas -/

theorem dictGet_eq_none_of_not_mem_keys {α : Type} (d : List (String × α)) (k : String)
    (h : k ∉ d.map Prod.fst) : dictGet d k = none := by
  induction d with
  | nil => rfl
  | cons e rest ih =>
    simp only [List.map_cons, List.mem_cons] at h
    push_neg at h
    simp only [dictGet]
    rw [if_neg (fun he => h.1 he.symm)]
    exact ih h.2

theorem dictPop_fst_eq_dictGet {α : Type} (d : List (String × α)) (k : String) :
    (dictPop d k).1 = dictGet d k := by
  induction d with
  | nil => rfl
  | cons e rest ih =>
    obtain ⟨k', v⟩ := e
    by_cases h : k' = k <;> simp [dictPop, dictGet, h, ih]

theorem dictGet_dictPop_snd {α : Type} (d : List (String × α)) (k : String)
    (h : (d.map Prod.fst).Nodup) : dictGet (dictPop d k).2 k = none := by
  induction d with
  | nil => rfl
  | cons e rest ih =>
    obtain ⟨k', v⟩ := e
    simp only [List.map_cons, List.nodup_cons] at h
    by_cases hk : k' = k
    · subst hk
      simp only [dictPop, if_pos rfl]
      exact dictGet_eq_none_of_not_mem_keys rest k' h.1
    · simp only [dictPop, if_neg hk, dictGet]
      exact ih h.2

theorem dictGet_dictSet_self {α : Type} (d : List (String × α)) (k : String) (v : α) :
    dictGet (dictSet d k v) k = some v := by
  induction d with
  | nil => simp [dictSet, dictGet]
  | cons e rest ih =>
    obtain ⟨k', v'⟩ := e
    by_cases h : k' = k <;> simp [dictSet, dictGet, h, ih]

theorem dictSetdefault_fst {α : Type} (d : List (String × α)) (k : String) (v : α) :
    (dictSetdefault d k v).1 = (dictGet d k).getD v := by
  unfold dictSetdefault
  cases dictGet d k <;> rfl

theorem dictGet_initBucket (a : ActionType) : dictGet initBucket a.val = some ⟨0, 0⟩ := by
  cases a <;> rfl

/-- The value returned by the setdefault chain feeding the statistics
update equals the stored count/reward pair with read defaults. -/
theorem dictSetdefault_initBucket_chain (s : Stats) (b : String) (a : ActionType) :
    (dictSetdefault (dictSetdefault s.buckets b initBucket).1 a.val (⟨0, 0⟩ : ActionStats)).1 =
      statsAt s b a := by
  rw [dictSetdefault_fst, dictSetdefault_fst]
  cases h : dictGet s.buckets b with
  | none => simp [statsAt, h, dictGet_initBucket a]
  | some bs => simp [statsAt, h]

/-! ### Claim C2 -/

/-- C2: for every Context with mode SILENT, BanditPolicy.decide returns an
Action whose action type is DO_NOT_DISTURB, regardless of the bucket
statistics, and the decision does not consult the randomness source at
all (no exploration occurs on this path). -/
theorem c2_bandit_silent_always_do_not_disturb (st : BanditState) (ctx : Context)
    (r : Rand) (h : ctx.mode = Mode.SILENT) :
    (banditDecide st ctx r).2.1.action_type = ActionType.DO_NOT_DISTURB ∧
    (∀ r' : Rand, banditDecide st ctx r = banditDecide st ctx r') := by
  constructor
  · simp [banditDecide, h, Action.makeWithReason]
  · intro r'
    simp [banditDecide, h]

/-- Witness for C2 at a concrete silent context. -/
theorem c2_bandit_silent_always_do_not_disturb_witness :
    (banditDecide emptyState silentCtx exploitRand).2.1.action_type =
      ActionType.DO_NOT_DISTURB ∧
    (∀ r' : Rand, banditDecide emptyState silentCtx exploitRand =
      banditDecide emptyState silentCtx r') :=
  c2_bandit_silent_always_do_not_disturb emptyState silentCtx exploitRand rfl

/-! ### Claim C9 -/

theorem decodeActionStats_enc (a : ActionStats) :
    decodeActionStats (encodeActionStats a) = some a := by
  obtain ⟨c, r⟩ := a
  simp [encodeActionStats, decodeActionStats, Rat.den_intCast, Rat.num_intCast]

theorem decodeFields_enc {α : Type} (dec : Json → Option α) (enc : α → Json)
    (h : ∀ a, dec (enc a) = some a) (l : List (String × α)) :
    decodeFields dec (l.map (fun e => (e.1, enc e.2))) = some l := by
  induction l with
  | nil => rfl
  | cons e rest ih => simp [decodeFields, h, ih]

theorem decodeBucket_enc (b : Bucket) : decodeBucket (encodeBucket b) = some b :=
  decodeFields_enc decodeActionStats encodeActionStats decodeActionStats_enc b

/-- C9: serializing the bandit statistics as _save_stats does and reading
them back as _load_stats does recovers the identical
bucket/action/count/reward mapping, for every statistics value of the
reachable shape (counts are naturals, rewards integral). -/
theorem c9_stats_roundtrip (s : Stats) : decodeStats (encodeStats s) = some s := by
  obtain ⟨bs⟩ := s
  show (decodeFields decodeBucket (bs.map (fun e => (e.1, encodeBucket e.2)))).map
    Stats.mk = some ⟨bs⟩
  rw [decodeFields_enc decodeBucket encodeBucket decodeBucket_enc bs]
  rfl

/-! ### Claim C7 -/

/-- C7: when every action type of a bucket has count 0, exploit-mode
selection scores every action type 0, the tie list equals the full
five-element enumeration of action types, and the selection picks the
element of that full list at the uniform choice index — so with the index
uniform the choice is uniform over all five action types, and every
action type is reachable. -/
theorem c7_all_zero_bucket_uniform_tie (bs : Bucket)
    (h : ∀ a : ActionType, (dictGetD bs a.val ⟨0, 0⟩).count = 0) :
    (∀ a : ActionType, scoreOf bs a = 0) ∧
    bestLoop bs ActionType.all none [] = (some 0, ActionType.all) ∧
    (∀ r : Rand, ¬ r.roll < epsilon →
      selectAction bs r = (ActionType.all.getD (r.exploitIdx % 5) .ENCOURAGE, false)) ∧
    (∀ a : ActionType, ∃ r : Rand, ¬ r.roll < epsilon ∧ selectAction bs r = (a, false)) := by
  have hs : ∀ a : ActionType, scoreOf bs a = 0 := by
    intro a
    simp [scoreOf, h a]
  have hb : bestLoop bs ActionType.all none [] = (some 0, ActionType.all) := by
    simp [ActionType.all, bestLoop, hs]
  have hsel : ∀ r : Rand, ¬ r.roll < epsilon →
      selectAction bs r = (ActionType.all.getD (r.exploitIdx % 5) .ENCOURAGE, false) := by
    intro r hr
    simp only [selectAction]
    rw [if_neg hr, hb]
    simp [ActionType.all]
  refine ⟨hs, hb, hsel, ?_⟩
  intro a
  have hroll : ¬ (1 : ℚ) < epsilon := by norm_num [epsilon]
  cases a with
  | DO_NOT_DISTURB =>
    exact ⟨⟨1, 0, 0⟩, hroll, by rw [hsel ⟨1, 0, 0⟩ hroll]; rfl⟩
  | ENCOURAGE =>
    exact ⟨⟨1, 0, 1⟩, hroll, by rw [hsel ⟨1, 0, 1⟩ hroll]; rfl⟩
  | TASK_BREAKDOWN =>
    exact ⟨⟨1, 0, 2⟩, hroll, by rw [hsel ⟨1, 0, 2⟩ hroll]; rfl⟩
  | REST_REMINDER =>
    exact ⟨⟨1, 0, 3⟩, hroll, by rw [hsel ⟨1, 0, 3⟩ hroll]; rfl⟩
  | REFRAME =>
    exact ⟨⟨1, 0, 4⟩, hroll, by rw [hsel ⟨1, 0, 4⟩ hroll]; rfl⟩

/-- Witness for C7 at the freshly initialized all-zero bucket. -/
theorem c7_all_zero_bucket_uniform_tie_witness :
    (∀ a : ActionType, scoreOf initBucket a = 0) ∧
    bestLoop initBucket ActionType.all none [] = (some 0, ActionType.all) ∧
    (∀ r : Rand, ¬ r.roll < epsilon →
      selectAction initBucket r = (ActionType.all.getD (r.exploitIdx % 5) .ENCOURAGE, false)) ∧
    (∀ a : ActionType, ∃ r : Rand, ¬ r.roll < epsilon ∧
      selectAction initBucket r = (a, false)) :=
  c7_all_zero_bucket_uniform_tie initBucket (by intro a; cases a <;> rfl)

/-! ### Claim C8 -/

/-- record_feedback is the identity when the pending map has no entry for
the request id (the source pops with a None default and returns). -/
theorem recordFeedback_no_entry (st : BanditState) (rid fb : String)
    (h : dictGet st.pending rid = none) : recordFeedback st rid fb = st := by
  unfold recordFeedback
  by_cases hr : rid = ""
  · rw [if_pos hr]
  · have hp : (dictPop st.pending rid).1 = none := by
      rw [dictPop_fst_eq_dictGet]; exact h
    simp only [if_neg hr, hp]

/-- C8: a second record_feedback call with the same request id is a no-op
because the first call consumed the pending entry (assuming the pending
dict invariant of distinct keys), and record_feedback for an id with no
pending entry leaves the whole state — statistics and pending map —
unchanged without raising. -/
theorem c8_feedback_consumed_once (st : BanditState) (rid fb fb2 : String)
    (hnd : (st.pending.map Prod.fst).Nodup) :
    recordFeedback (recordFeedback st rid fb) rid fb2 = recordFeedback st rid fb ∧
    (dictGet st.pending rid = none → recordFeedback st rid fb = st) := by
  refine ⟨?_, recordFeedback_no_entry st rid fb⟩
  by_cases hr : rid = ""
  · subst hr
    have h1 : recordFeedback st "" fb = st := by unfold recordFeedback; rw [if_pos rfl]
    rw [h1]
    unfold recordFeedback
    rw [if_pos rfl]
  · cases hg : dictGet st.pending rid with
    | none =>
      rw [recordFeedback_no_entry st rid fb hg, recordFeedback_no_entry st rid fb2 hg]
    | some entry =>
      have hpop : (dictPop st.pending rid).1 = some entry := by
        rw [dictPop_fst_eq_dictGet]; exact hg
      have hpend : (recordFeedback st rid fb).pending = (dictPop st.pending rid).2 := by
        unfold recordFeedback
        simp only [if_neg hr, hpop]
        by_cases hz : feedbackReward fb = 0 <;> simp [hz]
      have hnone : dictGet (recordFeedback st rid fb).pending rid = none := by
        rw [hpend]
        exact dictGet_dictPop_snd st.pending rid hnd
      exact recordFeedback_no_entry _ rid fb2 hnone

/-- Witness for C8: with one pending entry, the theorem specialized at a
present id and at an absent id. -/
theorem c8_feedback_consumed_once_witness :
    recordFeedback (recordFeedback pendingState "r1" "LIKE") "r1" "LIKE" =
      recordFeedback pendingState "r1" "LIKE" ∧
    recordFeedback pendingState "r2" "LIKE" = pendingState :=
  ⟨(c8_feedback_consumed_once pendingState "r1" "LIKE" "LIKE" (by decide)).1,
   (c8_feedback_consumed_once pendingState "r2" "LIKE" "LIKE" (by decide)).2 (by decide)⟩

/-! ### Claim C3 -/

/-- On a non-zero reward, record_feedback bumps the count by one and the
reward sum by the reward value at the recorded bucket and action type, and
persists the updated statistics. -/
theorem recordFeedback_nonzero (st : BanditState) (rid fb b : String) (a : ActionType)
    (hrid : rid ≠ "") (hget : dictGet st.pending rid = some (b, a))
    (hz : feedbackReward fb ≠ 0) :
    statsAt (recordFeedback st rid fb).stats b a =
      ⟨(statsAt st.stats b a).count + 1, (statsAt st.stats b a).reward + feedbackReward fb⟩ ∧
    (recordFeedback st rid fb).saves = st.saves ++ [(recordFeedback st rid fb).stats] := by
  have hpop : (dictPop st.pending rid).1 = some (b, a) := by
    rw [dictPop_fst_eq_dictGet]; exact hget
  unfold recordFeedback
  simp only [if_neg hrid, hpop, if_neg hz]
  constructor
  · simp [statsAt, dictGet_dictSet_self,
      dictSetdefault_initBucket_chain st.stats b a]
  · simp

/-- On a zero reward, record_feedback changes neither the statistics nor
the saves log (the pending entry is still consumed). -/
theorem recordFeedback_zero (st : BanditState) (rid fb : String)
    (hz : feedbackReward fb = 0) :
    (recordFeedback st rid fb).stats = st.stats ∧
    (recordFeedback st rid fb).saves = st.saves := by
  unfold recordFeedback
  by_cases hr : rid = ""
  · simp [if_pos hr]
  · simp only [if_neg hr]
    cases hp : (dictPop st.pending rid).1 <;> simp [hp, hz]

/-- C3 counterexample: the feedback text with a leading space refutes the
claimed mapping.  The claim says the reward is the upper-cased substring
before the first colon, which for " like" is " LIKE", outside both keyword
sets, so reward 0.0 and no update; the source strips whitespace first,
maps it to +1.0, records a trial and persists. -/
theorem c3_feedback_reward_counterexample :
    claimedReward " like" = 0 ∧
    feedbackReward " like" = 1 ∧
    statCount pendingState.stats (bucketKey lightCtx) ActionType.ENCOURAGE = 0 ∧
    statCount (recordFeedback pendingState "r1" " like").stats (bucketKey lightCtx)
      ActionType.ENCOURAGE = 1 ∧
    (recordFeedback pendingState "r1" " like").saves.length = 1 := by
  decide

/-- C3 (amended: the substring before the first colon is stripped of
surrounding whitespace before upper-casing): after a recorded decision,
feedback LIKE:something bumps the count by 1 and the reward by +1.0 and
persists; DISLIKE bumps the count by 1 and adds -1.0 and persists; NOOP
changes nothing and does not persist; in general the reward is the
stripped, upper-cased prefix mapped over the two keyword sets, and a zero
reward skips the statistics update and the persist entirely. -/
theorem c3_feedback_reward_updates (st : BanditState) (rid b : String) (a : ActionType)
    (hrid : rid ≠ "") (hget : dictGet st.pending rid = some (b, a)) :
    (statsAt (recordFeedback st rid "LIKE:something").stats b a =
       ⟨(statsAt st.stats b a).count + 1, (statsAt st.stats b a).reward + 1⟩ ∧
     (recordFeedback st rid "LIKE:something").saves =
       st.saves ++ [(recordFeedback st rid "LIKE:something").stats]) ∧
    (statsAt (recordFeedback st rid "DISLIKE").stats b a =
       ⟨(statsAt st.stats b a).count + 1, (statsAt st.stats b a).reward + (-1)⟩ ∧
     (recordFeedback st rid "DISLIKE").saves =
       st.saves ++ [(recordFeedback st rid "DISLIKE").stats]) ∧
    ((recordFeedback st rid "NOOP").stats = st.stats ∧
     (recordFeedback st rid "NOOP").saves = st.saves) ∧
    (∀ fb : String, feedbackReward fb = amendedReward fb) ∧
    (∀ fb : String, feedbackReward fb = 0 →
      (recordFeedback st rid fb).stats = st.stats ∧
      (recordFeedback st rid fb).saves = st.saves) := by
  have hlike : feedbackReward "LIKE:something" = 1 := by decide
  have hdis : feedbackReward "DISLIKE" = -1 := by decide
  have hnoop : feedbackReward "NOOP" = 0 := by decide
  refine ⟨?_, ?_, recordFeedback_zero st rid "NOOP" hnoop, fun fb => rfl,
    fun fb hz => recordFeedback_zero st rid fb hz⟩
  · have h := recordFeedback_nonzero st rid "LIKE:something" b a hrid hget
      (by rw [hlike]; decide)
    rwa [hlike] at h
  · have h := recordFeedback_nonzero st rid "DISLIKE" b a hrid hget
      (by rw [hdis]; decide)
    rwa [hdis] at h

/-- Witness for C3 at the concrete recorded decision. -/
theorem c3_feedback_reward_updates_witness :
    statsAt (recordFeedback pendingState "r1" "LIKE:something").stats (bucketKey lightCtx)
      ActionType.ENCOURAGE =
      ⟨(statsAt pendingState.stats (bucketKey lightCtx) ActionType.ENCOURAGE).count + 1,
       (statsAt pendingState.stats (bucketKey lightCtx) ActionType.ENCOURAGE).reward + 1⟩ ∧
    (recordFeedback pendingState "r1" "NOOP").stats = pendingState.stats :=
  ⟨(c3_feedback_reward_updates pendingState "r1" (bucketKey lightCtx) ActionType.ENCOURAGE
      (by decide) (by decide)).1.1,
   (c3_feedback_reward_updates pendingState "r1" (bucketKey lightCtx) ActionType.ENCOURAGE
      (by decide) (by decide)).2.2.1.1⟩

/-! ### Claim C6 -/

/-- C6 counterexample: a concrete BanditPolicy.decide call (fresh bucket,
exploit roll, choice index 1) returns the ENCOURAGE action, whose fixed
interruption cost 1.5 lies outside the claimed interval from 0 to 1. -/
theorem c6_cost_counterexample :
    (banditDecide emptyState lightCtx { roll := 1, exploreIdx := 0, exploitIdx := 1 }).2.1.cost
      = 15 / 10 ∧
    ¬ (banditDecide emptyState lightCtx
        { roll := 1, exploreIdx := 0, exploitIdx := 1 }).2.1.cost ≤ 1 := by
  have hroll : ¬ (1 : ℚ) < epsilon := by norm_num [epsilon]
  have hcost : (banditDecide emptyState lightCtx
      { roll := 1, exploreIdx := 0, exploitIdx := 1 }).2.1.cost = 15 / 10 := by
    simp only [banditDecide, emptyState, lightCtx, Action.makeWithReason]
    norm_num [selectAction, hroll, bestLoop, scoreOf, dictGetD, dictGet_initBucket,
      dictSetdefault, dictGet, ActionType.all]
    rw [if_neg (by decide : ¬ Mode.LIGHT = Mode.SILENT)]
    norm_num [actionCost]
  refine ⟨hcost, ?_⟩
  rw [hcost]
  norm_num

/-- C6 (amended: the interval is from 0 to 3): every Action produced by
BanditPolicy.decide carries one of the fixed per-action-type costs, all of
which lie in the interval from 0 to 3, and UnavailablePolicy.decide always
carries cost 0.  (OllamaPolicy.decide never returns an Action in this
revision — see the C1 theorem.) -/
theorem c6_decide_cost_bounds (st : BanditState) (ctx : Context) (r : Rand) :
    (0 ≤ (banditDecide st ctx r).2.1.cost ∧ (banditDecide st ctx r).2.1.cost ≤ 3) ∧
    (∀ c : Context, (unavailableDecide c).1.cost = 0) := by
  have h : ∀ a : ActionType, 0 ≤ actionCost a ∧ actionCost a ≤ 3 := by
    intro a
    cases a <;> norm_num [actionCost]
  refine ⟨?_, fun c => rfl⟩
  show 0 ≤ actionCost _ ∧ actionCost _ ≤ 3
  exact h _

/-! ### Claim C10 -/

/-- C10: BanditPolicy.decide mutates only the in-memory statistics — it
inserts the context's bucket key with the all-zero initialization when
absent and otherwise leaves the mapping untouched, and it never writes the
statistics file — while record_feedback writes the file exactly when the
request id is non-empty, has a pending entry, and the feedback maps to a
non-zero reward. -/
theorem c10_decide_mutates_memory_only (st : BanditState) (ctx : Context) (r : Rand) :
    (banditDecide st ctx r).1.saves = st.saves ∧
    (banditDecide st ctx r).1.pending = st.pending ∧
    (banditDecide st ctx r).1.stats.buckets =
      (if (dictGet st.stats.buckets (bucketKey ctx)).isSome then st.stats.buckets
       else st.stats.buckets ++ [(bucketKey ctx, initBucket)]) ∧
    (∀ a : ActionType, dictGet initBucket a.val = some ⟨0, 0⟩) ∧
    (∀ rid fb : String,
      ((recordFeedback st rid fb).saves = st.saves ↔
        ¬ (rid ≠ "" ∧ (dictGet st.pending rid).isSome ∧ feedbackReward fb ≠ 0))) := by
  refine ⟨rfl, rfl, ?_, dictGet_initBucket, ?_⟩
  · show (dictSetdefault st.stats.buckets (bucketKey ctx) initBucket).2 = _
    unfold dictSetdefault
    cases h : dictGet st.stats.buckets (bucketKey ctx) <;> simp [h]
  · intro rid fb
    by_cases hr : rid = ""
    · subst hr
      have : recordFeedback st "" fb = st := by unfold recordFeedback; rw [if_pos rfl]
      simp [this]
    · cases hg : dictGet st.pending rid with
      | none =>
        rw [recordFeedback_no_entry st rid fb hg]
        simp [hg]
      | some entry =>
        by_cases hz : feedbackReward fb = 0
        · rw [(recordFeedback_zero st rid fb hz).2]
          simp [hr, hg, hz]
        · have hpop : (dictPop st.pending rid).1 = some entry := by
            rw [dictPop_fst_eq_dictGet]; exact hg
          have hsave : (recordFeedback st rid fb).saves =
              st.saves ++ [(recordFeedback st rid fb).stats] := by
            unfold recordFeedback
            simp [if_neg hr, hpop, if_neg hz]
          rw [hsave]
          simp [hr, hg, hz]

/-! ### Claim C1 -/

theorem except_error_bind {ε α β : Type} (e : ε) (f : α → Except ε β) :
    (Except.error e : Except ε α) >>= f = Except.error e := rfl

theorem except_error_map {ε α β : Type} (e : ε) (f : α → β) :
    f <$> (Except.error e : Except ε α) = Except.error e := rfl

/-- _build_prompt raises AttributeError on every context: it reads
`context.switch_count` when the switch_count signal is absent or empty,
and reads `context.focus_state` unconditionally, and models.Context
declares neither field. -/
theorem buildPrompt_raises (ctx : Context) :
    buildPrompt ctx = .error (.attributeError "switch_count") ∨
    buildPrompt ctx = .error (.attributeError "focus_state") := by
  unfold buildPrompt
  by_cases h : dictGetD ctx.signals "switch_count" "" = ""
  · left
    simp [h, Context.getattrSwitchCount, except_error_bind, except_error_map]
  · right
    simp [h, Context.getattrFocusState, except_error_bind, except_error_map]

/-- decide calls _build_prompt before the try block, so the AttributeError
propagates to the caller whatever the backend does. -/
theorem ollamaDecide_raises (ctx : Context) (m : String) (now : Int) (b : Backend) :
    ollamaDecide ctx m now b = .error (.attributeError "switch_count") ∨
    ollamaDecide ctx m now b = .error (.attributeError "focus_state") := by
  rcases buildPrompt_raises ctx with h | h
  · left
    simp [ollamaDecide, h, except_error_bind]
  · right
    simp [ollamaDecide, h, except_error_bind]

/-- C1: contrary to the claim, OllamaPolicy.decide never returns the fixed
ollama_error action on a backend failure: it raises AttributeError to the
caller for every context and every backend outcome, because _build_prompt
runs before the try block and reads the undeclared context attributes
switch_count and focus_state — concretely so at a context with empty
signals, and generally with one of the two attribute names. -/
theorem c1_ollama_error_never_returned :
    (∀ (m : String) (now : Int) (b : Backend),
      ollamaDecide lightCtx m now b = .error (.attributeError "switch_count")) ∧
    (∀ (ctx : Context) (m : String) (now : Int) (b : Backend),
      ollamaDecide ctx m now b = .error (.attributeError "switch_count") ∨
      ollamaDecide ctx m now b = .error (.attributeError "focus_state")) :=
  ⟨fun _ _ _ => rfl, fun ctx m now b => ollamaDecide_raises ctx m now b⟩

/-! ### Claim C4 -/

/-- C4: the gate correctly resolves agent_enabled to false from the signal
spelling 0, but the disabled branch then raises AttributeError while
building its action (it reads the undeclared `payload.context.focus_state`),
so the endpoint never returns the claimed agent_disabled action — it
errors before any policy decide could run, for every context that resolves
agent_enabled to false. -/
theorem c4_agent_disabled_gate_raises :
    resolveAgentSettings envDefault gateCtx = (false, false) ∧
    decideGate envDefault gateCtx = .error (.attributeError "focus_state") ∧
    (∀ (env : EnvCfg) (ctx : Context),
      (resolveAgentSettings env ctx).1 = true ∨
      decideGate env ctx = .error (.attributeError "focus_state")) := by
  refine ⟨by decide, rfl, ?_⟩
  intro env ctx
  by_cases h : (resolveAgentSettings env ctx).1 = true
  · exact Or.inl h
  · right
    have hf : (resolveAgentSettings env ctx).1 = false := by
      cases hb : (resolveAgentSettings env ctx).1
      · rfl
      · exact absurd hb h
    simp [decideGate, hf, Context.getattrFocusState, except_error_bind]

/-! ### Claim C5 -/

/-- C5: contrary to the claim, the precheck short-circuit is unreachable:
with blank user text and budget_remaining 0 the decide call raises
AttributeError from _build_prompt (invoked before _precheck) instead of
returning the precheck:budget_remaining action, and with explicit user
text the call raises the same way instead of reaching the backend; even
_precheck itself, run directly on the budget context, raises while
building its action (it reads the undeclared context.focus_state). -/
theorem c5_precheck_never_reached :
    (∀ (m : String) (now : Int) (b : Backend),
      ollamaDecide budgetCtx m now b = .error (.attributeError "switch_count")) ∧
    (∀ (m : String) (now : Int) (b : Backend),
      ollamaDecide textCtx m now b = .error (.attributeError "switch_count")) ∧
    (∀ now : Int, precheck budgetCtx now = .error (.attributeError "focus_state")) :=
  ⟨fun _ _ _ => rfl, fun _ _ _ => rfl, fun _ => rfl⟩

end Luma
